import Mathlib

/-!
Shallow embedding of the ChitUI thumbnail-extractor core
(`src/extractor/goo_extractor.py`, `src/extractor/goo_batch.py`,
`src/extractor/goo_manager.py`, `src/extract_goo_thumbnails.py`).

Byte buffers are `List Nat` (each entry one byte, 0..255); Python floats in
the quality / orientation heuristics are modelled exactly over `ℚ` (the
literal thresholds 1.1 and 1.2 become 11/10 and 12/10); fallible code
(Python exceptions) returns `Option`.
-/

/-- An 8-bit RGB triple, the output of the RGB565 decoder. -/
abbrev RGB := Nat × Nat × Nat

/-- `GooThumbnailExtractor._decode_rgb565` (identical in every variant):
extract the 5-bit red field (bits 15..11), 6-bit green (bits 10..5) and
5-bit blue (bits 4..0) of a 16-bit word and scale each to 8 bits with
truncating integer division `value * 255 // max`. -/
def decode_rgb565 (pixel : Nat) : RGB :=
  let red := (pixel >>> 11) &&& 0x1F
  let green := (pixel >>> 5) &&& 0x3F
  let blue := pixel &&& 0x1F
  (red * 255 / 31, green * 255 / 63, blue * 255 / 31)

/-- `GooThumbnailExtractor.VERSION_SIZE`. -/
def VERSION_SIZE : Int := 4
/-- `GooThumbnailExtractor.SOFTWARE_INFO_SIZE`. -/
def SOFTWARE_INFO_SIZE : Int := 32
/-- `GooThumbnailExtractor.SOFTWARE_VERSION_SIZE`. -/
def SOFTWARE_VERSION_SIZE : Int := 24
/-- `GooThumbnailExtractor.FILE_TIME_SIZE`. -/
def FILE_TIME_SIZE : Int := 24
/-- `GooThumbnailExtractor.PRINTER_NAME_SIZE`. -/
def PRINTER_NAME_SIZE : Int := 32
/-- `GooThumbnailExtractor.PRINTER_TYPE_SIZE`. -/
def PRINTER_TYPE_SIZE : Int := 32
/-- `GooThumbnailExtractor.PROFILE_NAME_SIZE`. -/
def PROFILE_NAME_SIZE : Int := 32

/-- `GooThumbnailExtractor._calculate_preview_offset`: running sum of the
fixed header field widths, the three u16 fields (anti-aliasing, grey,
blur levels) and the caller-supplied adjustment.  The adjustment is a
Python `int`, so the result is modelled over `Int`. -/
def calculate_preview_offset (offset_adjustment : Int) : Int :=
  0 + VERSION_SIZE + SOFTWARE_INFO_SIZE + SOFTWARE_VERSION_SIZE
    + FILE_TIME_SIZE + PRINTER_NAME_SIZE + PRINTER_TYPE_SIZE
    + PROFILE_NAME_SIZE + 2 + 2 + 2 + offset_adjustment

/-- Byte order selector: `'>'` (big) or `'<'` (little) in the Python
`struct` format strings. -/
inductive Endian
| big
| little
deriving DecidableEq

/-- `struct.unpack(endian + 'H', bytes)[0]`: assemble two bytes into a
16-bit word in the given byte order. -/
def unpackU16 : Endian → Nat → Nat → Nat
  | Endian.big, b0, b1 => b0 * 256 + b1
  | Endian.little, b0, b1 => b0 + b1 * 256

/-- The pixel loop of `_extract_preview_image`: decode each consecutive
2-byte word of the byte stream as one RGB565 pixel. -/
def toPixels (e : Endian) : List Nat → List RGB
  | b0 :: b1 :: rest => decode_rgb565 (unpackU16 e b0 b1) :: toPixels e rest
  | _ => []

/-- A decoded preview image: `PIL.Image` dimensions plus the row-major
pixel list passed to `img.putdata`. -/
structure PImage where
  width : Nat
  height : Nat
  pixels : List RGB
deriving DecidableEq

/-- `_extract_preview_image(data, width, height, endian)` (identical in all
variants; the CTB variant hard-codes little-endian): raise `ValueError`
(here `none`) when fewer than `width*height*2` bytes are available,
otherwise decode exactly that many bytes, two per pixel, row-major. -/
def extract_preview_image (data : List Nat) (width height : Nat)
    (e : Endian) : Option PImage :=
  let expected_size := width * height * 2
  if data.length < expected_size then none
  else some ⟨width, height, toPixels e (data.take expected_size)⟩

/-- `struct.unpack('<I', f.read(4))[0]` at a byte offset: `none` when fewer
than 4 bytes remain (Python `struct.error`). -/
def readU32LE (data : List Nat) (off : Nat) : Option Nat :=
  match data.drop off with
  | b0 :: b1 :: b2 :: b3 :: _ =>
      some (b0 + b1 * 256 + b2 * 65536 + b3 * 16777216)
  | _ => none

/-- Sum of the three channels of a pixel, the `r + g + b` of the
orientation heuristics. -/
def rgbSum (p : RGB) : Nat := p.1 + p.2.1 + p.2.2

/-- Edge-sum loop of `goo_manager.GooThumbnailExtractor._detect_orientation`:
each index contributes its pixel's channel sum only under the source's
`if idx < len(pixels)` guard. -/
def guardedEdgeSum (pixels : List RGB) (idxs : List Nat) : Nat :=
  idxs.foldl
    (fun acc idx =>
      if idx < pixels.length then acc + rgbSum (pixels.getD idx (0, 0, 0))
      else acc) 0

/-- Edge-sum comprehension of the CTB / batch detectors: each index is
clamped to `len(pixels) - 1` before lookup (`min(idx, len(pixels)-1)`). -/
def clampedEdgeSum (pixels : List RGB) (idxs : List Nat) : Nat :=
  idxs.foldl
    (fun acc idx =>
      acc + rgbSum (pixels.getD (min idx (pixels.length - 1)) (0, 0, 0))) 0

/-- Top-edge comprehension `[pixels[x] for x in range(min(width, len(pixels)))]`
of the CTB / batch detectors. -/
def truncatedTopSum (pixels : List RGB) (width : Nat) : Nat :=
  (List.range (min width pixels.length)).foldl
    (fun acc x => acc + rgbSum (pixels.getD x (0, 0, 0))) 0

/-- `goo_manager.GooThumbnailExtractor._detect_orientation`: average edge
intensities (floats, modelled exactly over `ℚ`; the literal threshold 1.1
becomes 11/10) and return 270 when the vertical edges dominate.  No square
short-circuit.  (The Python negative-index corner at `width = 0` is not
reachable from the extractor, whose images have positive width.) -/
def goo_manager_detect_orientation (img : PImage) : Nat :=
  let pixels := img.pixels
  let width := img.width
  let height := img.height
  let top_sum := guardedEdgeSum pixels (List.range width)
  let top_edge : ℚ := if width > 0 then (top_sum : ℚ) / width else 0
  let bottom_start := (height - 1) * width
  let bottom_sum := guardedEdgeSum pixels
    ((List.range width).map (fun x => bottom_start + x))
  let bottom_edge : ℚ := if width > 0 then (bottom_sum : ℚ) / width else 0
  let left_sum := guardedEdgeSum pixels
    ((List.range height).map (fun y => y * width))
  let left_edge : ℚ := if height > 0 then (left_sum : ℚ) / height else 0
  let right_sum := guardedEdgeSum pixels
    ((List.range height).map (fun y => y * width + (width - 1)))
  let right_edge : ℚ := if height > 0 then (right_sum : ℚ) / height else 0
  let vertical_edge_content := (left_edge + right_edge) / 2
  let horizontal_edge_content := (top_edge + bottom_edge) / 2
  if vertical_edge_content > horizontal_edge_content * (11 / 10) then 270
  else 0

/-- `goo_manager.CtbThumbnailExtractor._detect_orientation`: same averages
with clamped indexing; threshold 1.1 (11/10 over `ℚ`).  The Python
`try/except` returning 0 on an empty pixel list coincides with the clamped
lookup's default here. -/
def ctb_detect_orientation (img : PImage) : Nat :=
  let pixels := img.pixels
  let width := img.width
  let height := img.height
  let top_sum := truncatedTopSum pixels width
  let top_edge : ℚ := if width > 0 then (top_sum : ℚ) / width else 0
  let bottom_start := (height - 1) * width
  let bottom_sum := clampedEdgeSum pixels
    ((List.range width).map (fun x => bottom_start + x))
  let bottom_edge : ℚ := if width > 0 then (bottom_sum : ℚ) / width else 0
  let left_sum := clampedEdgeSum pixels
    ((List.range height).map (fun y => y * width))
  let left_edge : ℚ := if height > 0 then (left_sum : ℚ) / height else 0
  let right_sum := clampedEdgeSum pixels
    ((List.range height).map (fun y => y * width + width - 1))
  let right_edge : ℚ := if height > 0 then (right_sum : ℚ) / height else 0
  let vertical_edge_content := (left_edge + right_edge) / 2
  let horizontal_edge_content := (top_edge + bottom_edge) / 2
  if vertical_edge_content > horizontal_edge_content * (11 / 10) then 270
  else 0

/-- `goo_batch.GooThumbnailExtractor._detect_orientation`: returns 0
immediately for square images; otherwise computes the edge averages
(unguarded float divisions, exact over `ℚ`) and, only for landscape
images, compares against threshold 1.2 (12/10). -/
def goo_batch_detect_orientation (img : PImage) : Nat :=
  let pixels := img.pixels
  let width := img.width
  let height := img.height
  if width = height then 0
  else
    let top_edge : ℚ := (truncatedTopSum pixels width : ℚ) / width
    let bottom_edge : ℚ :=
      (clampedEdgeSum pixels
        ((List.range width).map (fun x => (height - 1) * width + x)) : ℚ) / width
    let left_edge : ℚ :=
      (clampedEdgeSum pixels
        ((List.range height).map (fun y => y * width)) : ℚ) / height
    let right_edge : ℚ :=
      (clampedEdgeSum pixels
        ((List.range height).map (fun y => y * width + width - 1)) : ℚ) / height
    if width > height then
      let vertical_edge_content := (left_edge + right_edge) / 2
      let horizontal_edge_content := (top_edge + bottom_edge) / 2
      if vertical_edge_content > horizontal_edge_content * (12 / 10) then 270
      else 0
    else 0

/-- Modelled from the spec: `PIL.Image.rotate(90, expand=True)` (the
library call the source uses) is a counterclockwise quarter-turn with an
expanded `height x width` canvas; new pixel `(x', y')` is the old pixel
`(width-1-y', x')`. -/
def rotate90ccw (img : PImage) : PImage :=
  { width := img.height
    height := img.width
    pixels := (List.range (img.height * img.width)).map (fun i =>
      let xn := i % img.height
      let yn := i / img.height
      img.pixels.getD ((img.width - 1 - yn) + xn * img.width) (0, 0, 0)) }

/-- Modelled from the spec: `PIL.Image.rotate(-90, expand=True)` is a
clockwise quarter-turn with an expanded canvas; new pixel `(x', y')` is
the old pixel `(y', height-1-x')`. -/
def rotate90cw (img : PImage) : PImage :=
  { width := img.height
    height := img.width
    pixels := (List.range (img.height * img.width)).map (fun i =>
      let xn := i % img.height
      let yn := i / img.height
      img.pixels.getD (yn + (img.height - 1 - xn) * img.width) (0, 0, 0)) }

/-- Modelled from the spec: `PIL.Image.rotate(180)` keeps the canvas and
maps new pixel `(x', y')` to old pixel `(width-1-x', height-1-y')`. -/
def rotate180 (img : PImage) : PImage :=
  { width := img.width
    height := img.height
    pixels := (List.range (img.width * img.height)).map (fun i =>
      let xn := i % img.width
      let yn := i / img.width
      img.pixels.getD ((img.width - 1 - xn) + (img.height - 1 - yn) * img.width)
        (0, 0, 0)) }

/-- `goo_manager.GooThumbnailExtractor._smart_rotate`: detected 270 means
`img.rotate(90, expand=True)`, anything else returns the image unchanged. -/
def goo_manager_smart_rotate (img : PImage) : PImage :=
  if goo_manager_detect_orientation img = 270 then rotate90ccw img else img

/-- `goo_manager.CtbThumbnailExtractor._smart_rotate`. -/
def ctb_smart_rotate (img : PImage) : PImage :=
  if ctb_detect_orientation img = 270 then rotate90ccw img else img

/-- `goo_batch.GooThumbnailExtractor._smart_rotate(img, rotation)`:
`rotation=None` auto-detects; explicit 90/180/270 select the manual
transforms; anything else returns the image unchanged. -/
def goo_batch_smart_rotate (img : PImage) (rotation : Option Nat) : PImage :=
  let r := match rotation with
    | none => goo_batch_detect_orientation img
    | some r => r
  if r = 0 then img
  else if r = 90 then rotate90cw img
  else if r = 180 then rotate180 img
  else if r = 270 then rotate90ccw img
  else img

/-- One preview block of `CtbThumbnailExtractor.extract_thumbnails`: at the
pointer, read `width`, `height`, `data_size` as little-endian u32, then
read `data_size` bytes (possibly short at end-of-file) and decode them as
little-endian RGB565. -/
def ctb_read_preview (data : List Nat) (ptr : Nat) : Option PImage := do
  let w ← readU32LE data ptr
  let h ← readU32LE data (ptr + 4)
  let ds ← readU32LE data (ptr + 8)
  extract_preview_image ((data.drop (ptr + 12)).take ds) w h Endian.little

/-- `CtbThumbnailExtractor.extract_thumbnails` on an in-memory buffer:
magic and version u32 reads (values ignored but their `struct.unpack`
must succeed), the two preview pointers at offsets 8 and 12, both preview
blocks, then `_smart_rotate` on each. -/
def ctb_extract_thumbnails (data : List Nat) : Option (PImage × PImage) := do
  let _magic ← readU32LE data 0
  let _version ← readU32LE data 4
  let preview_small_offset ← readU32LE data 8
  let preview_large_offset ← readU32LE data 12
  let small_preview ← ctb_read_preview data preview_small_offset
  let big_preview ← ctb_read_preview data preview_large_offset
  some (ctb_smart_rotate small_preview, ctb_smart_rotate big_preview)

/-- `abs(a - b)` on Python ints, for channel differences. -/
def chanDiff (a b : Nat) : Nat := Nat.dist a b

/-- Summed absolute per-channel difference between two pixels. -/
def colorDiff (p q : RGB) : Nat :=
  chanDiff p.1 q.1 + chanDiff p.2.1 q.2.1 + chanDiff p.2.2 q.2.2

/-- Python `range(0, bound, step)` for positive `step`. -/
def sampleEvery (step bound : Nat) : List Nat :=
  (List.range ((bound + step - 1) / step)).map (fun k => k * step)

/-- `GooThumbnailExtractor._calculate_image_quality` (fine-tuning variant):
edge discontinuity between left and right edge samples (every 5th row)
and spatial coherence of sampled adjacent pixel pairs (every 10th row and
column); score is `coherence * 100 - edge_diff / 10`.  Float arithmetic is
modelled exactly over `ℚ`. -/
def calculate_image_quality (img : PImage) : ℚ :=
  let pixels := img.pixels
  let width := img.width
  let height := img.height
  let ys := sampleEvery 5 height
  let left_edge := ys.map (fun y => pixels.getD (y * width) (0, 0, 0))
  let right_edge := ys.map (fun y => pixels.getD (y * width + width - 1) (0, 0, 0))
  let edge_diff_sum := (left_edge.zip right_edge).foldl
    (fun acc lr => acc + colorDiff lr.1 lr.2) 0
  let edge_diff : ℚ := (edge_diff_sum : ℚ) / (left_edge.length : ℚ)
  let idxs := (sampleEvery 10 height).flatMap
    (fun y => (sampleEvery 10 (width - 1)).map (fun x => y * width + x))
  let counts := idxs.foldl
    (fun (sc : Nat × Nat) idx =>
      if idx + 1 < pixels.length then
        if colorDiff (pixels.getD idx (0, 0, 0)) (pixels.getD (idx + 1) (0, 0, 0)) < 50
        then (sc.1 + 1, sc.2 + 1)
        else (sc.1, sc.2 + 1)
      else sc) (0, 0)
  let coherence : ℚ := if counts.2 > 0 then (counts.1 : ℚ) / (counts.2 : ℚ) else 0
  coherence * 100 - edge_diff / 10

/-- `BIG_PREVIEW_SIZE[0] * BIG_PREVIEW_SIZE[1] * 2` bytes. -/
def bigPreviewBytes : Nat := 290 * 290 * 2

/-- `SMALL_PREVIEW_SIZE[0] * SMALL_PREVIEW_SIZE[1] * 2` bytes. -/
def smallPreviewBytes : Nat := 116 * 116 * 2

/-- Mutable best-candidate state of `find_best_offset`: `best_offset` and
`best_quality` are initialised, `best_endian` is first assigned inside the
loop (reading it while still `none` is Python's `UnboundLocalError`). -/
structure BestState where
  best_offset : Int
  best_quality : ℚ
  best_endian : Option Endian
deriving DecidableEq

/-- The candidate offsets `base_offset + offset_adj` for
`offset_adj in range(-search_range, search_range + 1, 2)`. -/
def candidateOffsets (base : Int) (r : Nat) : List Int :=
  (List.range (r + 1)).map (fun k => base + (-(r : Int) + 2 * k))

/-- One iteration of the `find_best_offset` loop at candidate offset `t`:
a negative seek target raises and is skipped by the `except` clause; a
short read of the large preview is skipped; otherwise both endiannesses
are scored and the best state updated on strict improvement. -/
def fbo_step (data : List Nat) (s : BestState) (t : Int) : BestState :=
  if t < 0 then s
  else
    let test_data := (data.drop t.toNat).take bigPreviewBytes
    if test_data.length < bigPreviewBytes then s
    else
      [Endian.big, Endian.little].foldl
        (fun s endian =>
          match extract_preview_image test_data 290 290 endian with
          | none => s
          | some test_img =>
            let quality := calculate_image_quality test_img
            if quality > s.best_quality then ⟨t, quality, some endian⟩ else s) s

/-- `GooThumbnailExtractor.find_best_offset` (fine-tuning variant): fold
the candidate loop from the initial state `(base, -999999, unbound)`; if
`best_endian` was never assigned the final `print` raises
`UnboundLocalError` (`none` here), otherwise return the best offset,
endianness and quality. -/
def find_best_offset (data : List Nat) (base : Int) (r : Nat) :
    Option (Int × Endian × ℚ) :=
  let final := (candidateOffsets base r).foldl (fbo_step data) ⟨base, -999999, none⟩
  match final.best_endian with
  | some e => some (final.best_offset, e, final.best_quality)
  | none => none

/-- The `rotate != 0` arm of `extract_thumbnails` (fine-tuning variant). -/
def goo_ft_apply_rotate (rotate : Nat) (img : PImage) : PImage :=
  if rotate = 90 then rotate90cw img
  else if rotate = 180 then rotate180 img
  else if rotate = 270 then rotate90ccw img
  else img

/-- `GooThumbnailExtractor.extract_thumbnails` of `goo_extractor.py` on an
in-memory buffer: compute the base offset, optionally run the offset
search (whose failure propagates), seek (negative target raises), read
`116*116*2` bytes then the following `290*290*2` bytes, decode both with
the chosen endianness, and apply the manual rotation when nonzero. -/
def goo_ft_extract_thumbnails (data : List Nat) (offset_adjustment : Int)
    (auto_adjust : Bool) (rotate : Nat) : Option (PImage × PImage) := do
  let base := calculate_preview_offset offset_adjustment
  let oe ←
    (if auto_adjust then
      match find_best_offset data base 100 with
      | none => none
      | some (o, e, _) => some (o, e)
    else some (base, Endian.big) : Option (Int × Endian))
  if oe.1 < 0 then none
  else
    let after := data.drop oe.1.toNat
    let small_preview ← extract_preview_image (after.take smallPreviewBytes)
      116 116 oe.2
    let big_preview ← extract_preview_image
      ((after.drop smallPreviewBytes).take bigPreviewBytes) 290 290 oe.2
    if rotate ≠ 0 then
      some (goo_ft_apply_rotate rotate small_preview,
        goo_ft_apply_rotate rotate big_preview)
    else
      some (small_preview, big_preview)

/-- Follows the spec's words (§4.6) for the refinement claim about
`find_best_offset`: the candidates actually scored, in iteration order —
offsets ascending from `base - r` to `base + r` in steps of 2, skipping
negative seek targets and offsets with fewer than `290*290*2` bytes
remaining, each kept offset tried big-endian first, then little-endian. -/
def spec_scored_candidates (data : List Nat) (base : Int) (r : Nat) :
    List (Int × Endian) :=
  ((candidateOffsets base r).filter
    (fun t => decide (0 ≤ t ∧ t.toNat + bigPreviewBytes ≤ data.length))).flatMap
    (fun t => [(t, Endian.big), (t, Endian.little)])

/-- Follows the spec's words (§4.6): the score of one candidate is the
quality of the large preview decoded at that offset with that endianness. -/
def spec_candidate_quality (data : List Nat) (c : Int × Endian) : ℚ :=
  calculate_image_quality
    ⟨290, 290, toPixels c.2 ((data.drop c.1.toNat).take bigPreviewBytes)⟩

/-- Follows the spec's words (§4.6): one strict-improvement update of the
best-candidate state, the innermost step of the search loop. -/
def spec_pair_step (data : List Nat) (s : BestState) (c : Int × Endian) :
    BestState :=
  if spec_candidate_quality data c > s.best_quality then
    ⟨c.1, spec_candidate_quality data c, some c.2⟩
  else s

lemma scale255_le (v m : Nat) (hv : v ≤ m) (hm : 0 < m) : v * 255 / m ≤ 255 := by
  calc v * 255 / m ≤ m * 255 / m := Nat.div_le_div_right (Nat.mul_le_mul_right _ hv)
    _ = 255 := by rw [Nat.mul_comm, Nat.mul_div_cancel _ hm]

lemma and_31_eq_mod (x : Nat) : x &&& 31 = x % 32 := Nat.and_pow_two_sub_one_eq_mod x 5

lemma and_63_eq_mod (x : Nat) : x &&& 63 = x % 64 := Nat.and_pow_two_sub_one_eq_mod x 6

/-- C1: the RGB565 codec is a total deterministic function; on every input
it returns `(r5*255/31, g6*255/63, b5*255/31)` with `r5` = bits 15..11,
`g6` = bits 10..5, `b5` = bits 4..0 (expressed arithmetically as
`pixel/2048 % 32`, `pixel/32 % 64`, `pixel % 32`), each component lies in
`[0, 255]`, and the three reference values hold. -/
theorem decode_rgb565_spec :
    (∀ pixel : Nat,
      decode_rgb565 pixel =
        (pixel / 2048 % 32 * 255 / 31,
         pixel / 32 % 64 * 255 / 63,
         pixel % 32 * 255 / 31) ∧
      (decode_rgb565 pixel).1 ≤ 255 ∧
      (decode_rgb565 pixel).2.1 ≤ 255 ∧
      (decode_rgb565 pixel).2.2 ≤ 255) ∧
    decode_rgb565 0x0000 = (0, 0, 0) ∧
    decode_rgb565 0xFFFF = (255, 255, 255) ∧
    decode_rgb565 0xF800 = (255, 0, 0) := by
  refine ⟨fun pixel => ?_, by decide, by decide, by decide⟩
  have hshape : decode_rgb565 pixel =
      (pixel / 2048 % 32 * 255 / 31,
       pixel / 32 % 64 * 255 / 63,
       pixel % 32 * 255 / 31) := by
    show (((pixel >>> 11) &&& 31) * 255 / 31, ((pixel >>> 5) &&& 63) * 255 / 63,
      (pixel &&& 31) * 255 / 31) = _
    rw [and_31_eq_mod, and_63_eq_mod, and_31_eq_mod,
      Nat.shiftRight_eq_div_pow, Nat.shiftRight_eq_div_pow]
  refine ⟨hshape, ?_, ?_, ?_⟩ <;> rw [hshape]
  · exact scale255_le _ _ (by omega) (by norm_num)
  · exact scale255_le _ _ (by omega) (by norm_num)
  · exact scale255_le _ _ (by omega) (by norm_num)

/-- C2: the GOO base-offset calculator returns `186 + adjustment` for every
integer adjustment (the fixed header fields sum to 186 bytes), and in
particular `calculate_preview_offset 8 = 194`. -/
theorem calculate_preview_offset_spec :
    (∀ adjustment : Int, calculate_preview_offset adjustment = 186 + adjustment) ∧
    calculate_preview_offset 8 = 194 := by
  constructor
  · intro adjustment
    simp only [calculate_preview_offset, VERSION_SIZE, SOFTWARE_INFO_SIZE,
      SOFTWARE_VERSION_SIZE, FILE_TIME_SIZE, PRINTER_NAME_SIZE,
      PRINTER_TYPE_SIZE, PROFILE_NAME_SIZE]
    omega
  · rfl

/-- The detectors agree that the bright-vertical-edges 3x2 landscape image
is rotated: manager GOO variant. -/
lemma manager_detect_landscape3x2 :
    goo_manager_detect_orientation
      ⟨3, 2, [(255,255,255), (0,0,0), (255,255,255),
              (255,255,255), (0,0,0), (255,255,255)]⟩ = 270 := by
  unfold goo_manager_detect_orientation
  dsimp only
  rw [show guardedEdgeSum [(255,255,255), (0,0,0), (255,255,255),
        (255,255,255), (0,0,0), (255,255,255)] (List.range 3) = 1530 from by decide]
  rw [show guardedEdgeSum [(255,255,255), (0,0,0), (255,255,255),
        (255,255,255), (0,0,0), (255,255,255)]
        ((List.range 3).map (fun x => (2-1)*3 + x)) = 1530 from by decide]
  rw [show guardedEdgeSum [(255,255,255), (0,0,0), (255,255,255),
        (255,255,255), (0,0,0), (255,255,255)]
        ((List.range 2).map (fun y => y * 3)) = 1530 from by decide]
  rw [show guardedEdgeSum [(255,255,255), (0,0,0), (255,255,255),
        (255,255,255), (0,0,0), (255,255,255)]
        ((List.range 2).map (fun y => y * 3 + (3-1))) = 1530 from by decide]
  norm_num

/-- CTB variant on the same 3x2 landscape image. -/
lemma ctb_detect_landscape3x2 :
    ctb_detect_orientation
      ⟨3, 2, [(255,255,255), (0,0,0), (255,255,255),
              (255,255,255), (0,0,0), (255,255,255)]⟩ = 270 := by
  unfold ctb_detect_orientation
  dsimp only
  rw [show truncatedTopSum [(255,255,255), (0,0,0), (255,255,255),
        (255,255,255), (0,0,0), (255,255,255)] 3 = 1530 from by decide]
  rw [show clampedEdgeSum [(255,255,255), (0,0,0), (255,255,255),
        (255,255,255), (0,0,0), (255,255,255)]
        ((List.range 3).map (fun x => (2-1)*3 + x)) = 1530 from by decide]
  rw [show clampedEdgeSum [(255,255,255), (0,0,0), (255,255,255),
        (255,255,255), (0,0,0), (255,255,255)]
        ((List.range 2).map (fun y => y * 3)) = 1530 from by decide]
  rw [show clampedEdgeSum [(255,255,255), (0,0,0), (255,255,255),
        (255,255,255), (0,0,0), (255,255,255)]
        ((List.range 2).map (fun y => y * 3 + 3 - 1)) = 1530 from by decide]
  norm_num

/-- Batch variant on the same 3x2 landscape image (threshold 1.2 and the
landscape gate both pass). -/
lemma batch_detect_landscape3x2 :
    goo_batch_detect_orientation
      ⟨3, 2, [(255,255,255), (0,0,0), (255,255,255),
              (255,255,255), (0,0,0), (255,255,255)]⟩ = 270 := by
  unfold goo_batch_detect_orientation
  dsimp only
  rw [show truncatedTopSum [(255,255,255), (0,0,0), (255,255,255),
        (255,255,255), (0,0,0), (255,255,255)] 3 = 1530 from by decide]
  rw [show clampedEdgeSum [(255,255,255), (0,0,0), (255,255,255),
        (255,255,255), (0,0,0), (255,255,255)]
        ((List.range 3).map (fun x => (2-1)*3 + x)) = 1530 from by decide]
  rw [show clampedEdgeSum [(255,255,255), (0,0,0), (255,255,255),
        (255,255,255), (0,0,0), (255,255,255)]
        ((List.range 2).map (fun y => y * 3)) = 1530 from by decide]
  rw [show clampedEdgeSum [(255,255,255), (0,0,0), (255,255,255),
        (255,255,255), (0,0,0), (255,255,255)]
        ((List.range 2).map (fun y => y * 3 + 3 - 1)) = 1530 from by decide]
  norm_num

/-- Manager GOO detector returns 0 on a 1x1 black image. -/
lemma manager_detect_black1x1 :
    goo_manager_detect_orientation ⟨1, 1, [(0,0,0)]⟩ = 0 := by
  unfold goo_manager_detect_orientation
  dsimp only
  rw [show guardedEdgeSum [((0:Nat),(0:Nat),(0:Nat))] (List.range 1) = 0 from by decide]
  rw [show guardedEdgeSum [((0:Nat),(0:Nat),(0:Nat))]
        ((List.range 1).map (fun x => (1-1)*1 + x)) = 0 from by decide]
  rw [show guardedEdgeSum [((0:Nat),(0:Nat),(0:Nat))]
        ((List.range 1).map (fun y => y * 1)) = 0 from by decide]
  rw [show guardedEdgeSum [((0:Nat),(0:Nat),(0:Nat))]
        ((List.range 1).map (fun y => y * 1 + (1-1))) = 0 from by decide]
  norm_num

/-- CTB detector returns 0 on a 1x1 black image. -/
lemma ctb_detect_black1x1 :
    ctb_detect_orientation ⟨1, 1, [(0,0,0)]⟩ = 0 := by
  unfold ctb_detect_orientation
  dsimp only
  rw [show truncatedTopSum [((0:Nat),(0:Nat),(0:Nat))] 1 = 0 from by decide]
  rw [show clampedEdgeSum [((0:Nat),(0:Nat),(0:Nat))]
        ((List.range 1).map (fun x => (1-1)*1 + x)) = 0 from by decide]
  rw [show clampedEdgeSum [((0:Nat),(0:Nat),(0:Nat))]
        ((List.range 1).map (fun y => y * 1)) = 0 from by decide]
  rw [show clampedEdgeSum [((0:Nat),(0:Nat),(0:Nat))]
        ((List.range 1).map (fun y => y * 1 + 1 - 1)) = 0 from by decide]
  norm_num

lemma ite_zero_270 (c : Prop) [Decidable c] :
    (if c then (270 : Nat) else 0) = 0 ∨ (if c then (270 : Nat) else 0) = 270 := by
  by_cases h : c <;> simp [h]

/-- C7: every orientation detector (manager GOO, batch GOO, CTB) returns
either 0 or 270 and never any other value; 90 and 180 can only come from
the explicit manual rotation options. -/
theorem detect_orientation_range (img : PImage) :
    (goo_manager_detect_orientation img = 0 ∨
      goo_manager_detect_orientation img = 270) ∧
    (goo_batch_detect_orientation img = 0 ∨
      goo_batch_detect_orientation img = 270) ∧
    (ctb_detect_orientation img = 0 ∨ ctb_detect_orientation img = 270) := by
  refine ⟨?_, ?_, ?_⟩
  · unfold goo_manager_detect_orientation
    dsimp only
    exact ite_zero_270 _
  · unfold goo_batch_detect_orientation
    dsimp only
    rcases eq_or_ne img.width img.height with h1 | h1
    · simp [h1]
    · rw [if_neg h1]
      rcases lt_or_ge img.height img.width with h2 | h2
      · rw [if_pos h2]
        exact ite_zero_270 _
      · rw [if_neg (not_lt.mpr h2)]
        left
        rfl
  · unfold ctb_detect_orientation
    dsimp only
    exact ite_zero_270 _

/-- C8: whenever a detector returns 270 the transform applied by
`_smart_rotate` is `rotate(90, expand=True)` — a +90-degree rotation on an
expanded canvas turning a `w x h` image into `h x w` — and when it
returns 0 the image is unchanged. -/
theorem smart_rotate_spec (img : PImage) :
    (goo_manager_detect_orientation img = 270 →
      goo_manager_smart_rotate img = rotate90ccw img) ∧
    (goo_manager_detect_orientation img = 0 →
      goo_manager_smart_rotate img = img) ∧
    (ctb_detect_orientation img = 270 →
      ctb_smart_rotate img = rotate90ccw img) ∧
    (ctb_detect_orientation img = 0 → ctb_smart_rotate img = img) ∧
    (goo_batch_detect_orientation img = 270 →
      goo_batch_smart_rotate img none = rotate90ccw img) ∧
    (goo_batch_detect_orientation img = 0 →
      goo_batch_smart_rotate img none = img) ∧
    (rotate90ccw img).width = img.height ∧
    (rotate90ccw img).height = img.width := by
  refine ⟨?_, ?_, ?_, ?_, ?_, ?_, rfl, rfl⟩ <;> intro h
  · simp [goo_manager_smart_rotate, h]
  · simp [goo_manager_smart_rotate, h]
  · simp [ctb_smart_rotate, h]
  · simp [ctb_smart_rotate, h]
  · simp [goo_batch_smart_rotate, h]
  · simp [goo_batch_smart_rotate, h]

/-- Witness for C8: a 3x2 landscape image with bright vertical edges is
detected as 270 by all three detectors and is rotated with the expanding
+90-degree transform; a 1x1 black image is detected as 0 and returned
unchanged. -/
theorem smart_rotate_spec_witness :
    goo_manager_smart_rotate
        ⟨3, 2, [(255,255,255), (0,0,0), (255,255,255),
                (255,255,255), (0,0,0), (255,255,255)]⟩ =
      rotate90ccw
        ⟨3, 2, [(255,255,255), (0,0,0), (255,255,255),
                (255,255,255), (0,0,0), (255,255,255)]⟩ ∧
    ctb_smart_rotate
        ⟨3, 2, [(255,255,255), (0,0,0), (255,255,255),
                (255,255,255), (0,0,0), (255,255,255)]⟩ =
      rotate90ccw
        ⟨3, 2, [(255,255,255), (0,0,0), (255,255,255),
                (255,255,255), (0,0,0), (255,255,255)]⟩ ∧
    goo_batch_smart_rotate
        ⟨3, 2, [(255,255,255), (0,0,0), (255,255,255),
                (255,255,255), (0,0,0), (255,255,255)]⟩ none =
      rotate90ccw
        ⟨3, 2, [(255,255,255), (0,0,0), (255,255,255),
                (255,255,255), (0,0,0), (255,255,255)]⟩ ∧
    goo_manager_smart_rotate ⟨1, 1, [(0,0,0)]⟩ = ⟨1, 1, [(0,0,0)]⟩ ∧
    ctb_smart_rotate ⟨1, 1, [(0,0,0)]⟩ = ⟨1, 1, [(0,0,0)]⟩ := by
  refine ⟨(smart_rotate_spec _).1 manager_detect_landscape3x2,
    (smart_rotate_spec _).2.2.1 ctb_detect_landscape3x2,
    (smart_rotate_spec _).2.2.2.2.1 batch_detect_landscape3x2,
    (smart_rotate_spec _).2.1 manager_detect_black1x1,
    (smart_rotate_spec _).2.2.2.1 ctb_detect_black1x1⟩

lemma extract_preview_image_short (data : List Nat) (width height : Nat)
    (e : Endian) (hlt : data.length < width * height * 2) :
    extract_preview_image data width height e = none := by
  simp [extract_preview_image, hlt]

lemma extract_preview_image_ok (data : List Nat) (width height : Nat)
    (e : Endian) (hlen : width * height * 2 ≤ data.length) :
    extract_preview_image data width height e =
      some ⟨width, height, toPixels e (data.take (width * height * 2))⟩ := by
  simp [extract_preview_image, Nat.not_lt.mpr hlen]

/-- C4: a GOO buffer shorter than `baseOffset + 116*116*2` makes
extraction fail with the insufficient-data error and no image at all is
produced; more generally decoding any preview region with fewer than
`width*height*2` bytes is an error. -/
theorem goo_insufficient_data :
    (∀ (data : List Nat) (adjustment : Int) (rotate : Nat),
      (data.length : Int) <
          calculate_preview_offset adjustment + (smallPreviewBytes : Int) →
      goo_ft_extract_thumbnails data adjustment false rotate = none) ∧
    (∀ (data : List Nat) (width height : Nat) (e : Endian),
      data.length < width * height * 2 →
      extract_preview_image data width height e = none) := by
  refine ⟨?_, fun data w h e hlt => extract_preview_image_short data w h e hlt⟩
  intro data adjustment rotate h
  by_cases hneg : calculate_preview_offset adjustment < 0
  · simp [goo_ft_extract_thumbnails, hneg]
  · have hsmall :
        ((data.drop (calculate_preview_offset adjustment).toNat).take
            smallPreviewBytes).length < 116 * 116 * 2 := by
      simp only [List.length_take, List.length_drop, smallPreviewBytes] at h ⊢
      omega
    simp [goo_ft_extract_thumbnails, hneg,
      extract_preview_image_short _ _ _ _ hsmall]

/-- Witness for C4 at the empty buffer. -/
theorem goo_insufficient_data_witness :
    goo_ft_extract_thumbnails [] 0 false 0 = none ∧
    extract_preview_image [] 116 116 Endian.big = none :=
  ⟨goo_insufficient_data.1 [] 0 0 (by
      norm_num [calculate_preview_offset, smallPreviewBytes, VERSION_SIZE,
        SOFTWARE_INFO_SIZE, SOFTWARE_VERSION_SIZE, FILE_TIME_SIZE,
        PRINTER_NAME_SIZE, PRINTER_TYPE_SIZE, PROFILE_NAME_SIZE]),
    goo_insufficient_data.2 [] 116 116 Endian.big (by norm_num)⟩

lemma toPixels_length (e : Endian) :
    ∀ l : List Nat, (toPixels e l).length = l.length / 2
  | [] => by simp [toPixels]
  | [_] => by simp [toPixels]
  | _ :: _ :: rest => by
    simp only [toPixels, List.length_cons, toPixels_length e rest]
    omega

lemma toPixels_getElem? (e : Endian) :
    ∀ (l : List Nat) (i : Nat), 2 * i + 1 < l.length →
      (toPixels e l)[i]? =
        some (decode_rgb565 (unpackU16 e (l.getD (2 * i) 0) (l.getD (2 * i + 1) 0)))
  | _ :: _ :: _, 0, _ => by simp [toPixels]
  | b0 :: b1 :: rest, i + 1, h => by
    have ih := toPixels_getElem? e rest i (by
      simp only [List.length_cons] at h
      omega)
    have h1 : 2 * (i + 1) = 2 * i + 1 + 1 := by omega
    have h2 : 2 * (i + 1) + 1 = 2 * i + 1 + 1 + 1 := by omega
    simp only [toPixels, List.getElem?_cons_succ, h1, h2, List.getD_cons_succ]
    exact ih
  | [], _, h => by simp at h
  | [_], _, h => by
    simp only [List.length_cons, List.length_nil] at h
    omega

lemma getD_take_of_lt {α : Type} (l : List α) (n i : Nat) (d : α) (h : i < n) :
    (l.take n).getD i d = l.getD i d := by
  rw [List.getD_eq_getElem?_getD, List.getD_eq_getElem?_getD,
    List.getElem?_take_of_lt h]

lemma getD_drop {α : Type} (l : List α) (n i : Nat) (d : α) :
    (l.drop n).getD i d = l.getD (n + i) d := by
  rw [List.getD_eq_getElem?_getD, List.getD_eq_getElem?_getD,
    List.getElem?_drop]

lemma extract_preview_image_pixels (data : List Nat) (width height : Nat)
    (e : Endian) (hlen : width * height * 2 ≤ data.length) :
    ∃ img, extract_preview_image data width height e = some img ∧
      img.width = width ∧ img.height = height ∧
      img.pixels.length = width * height ∧
      ∀ i < width * height,
        img.pixels[i]? = some (decode_rgb565
          (unpackU16 e (data.getD (2 * i) 0) (data.getD (2 * i + 1) 0))) := by
  refine ⟨⟨width, height, toPixels e (data.take (width * height * 2))⟩,
    extract_preview_image_ok data width height e hlen, rfl, rfl, ?_, ?_⟩
  · simp only [toPixels_length, List.length_take]
    omega
  · intro i hi
    have hb : 2 * i + 1 < (data.take (width * height * 2)).length := by
      simp only [List.length_take]
      omega
    rw [toPixels_getElem? e _ i hb,
      getD_take_of_lt _ _ _ _ (by omega : 2 * i < width * height * 2),
      getD_take_of_lt _ _ _ _ (by omega : 2 * i + 1 < width * height * 2)]

/-- C3: when the buffer holds both previews at the computed base offset,
GOO extraction (no auto-offset search) returns exactly a 116x116 and a
290x290 image; the small preview is decoded from the `116*116*2` bytes at
the base offset and the big preview from the immediately following
`290*290*2` bytes with no gap, each consecutive 2-byte word one RGB565
pixel in the default big-endian order, pixels filled in row-major order. -/
theorem goo_extract_layout (data : List Nat) (adjustment : Int)
    (h0 : 0 ≤ calculate_preview_offset adjustment)
    (h : (calculate_preview_offset adjustment).toNat + smallPreviewBytes
        + bigPreviewBytes ≤ data.length) :
    ∃ small big,
      goo_ft_extract_thumbnails data adjustment false 0 = some (small, big) ∧
      small.width = 116 ∧ small.height = 116 ∧
      small.pixels.length = 116 * 116 ∧
      big.width = 290 ∧ big.height = 290 ∧
      big.pixels.length = 290 * 290 ∧
      (∀ i < 116 * 116,
        small.pixels[i]? = some (decode_rgb565 (unpackU16 Endian.big
          (data.getD ((calculate_preview_offset adjustment).toNat + 2 * i) 0)
          (data.getD ((calculate_preview_offset adjustment).toNat + 2 * i + 1) 0)))) ∧
      (∀ j < 290 * 290,
        big.pixels[j]? = some (decode_rgb565 (unpackU16 Endian.big
          (data.getD ((calculate_preview_offset adjustment).toNat
            + smallPreviewBytes + 2 * j) 0)
          (data.getD ((calculate_preview_offset adjustment).toNat
            + smallPreviewBytes + 2 * j + 1) 0)))) := by
  have hneg : ¬ (calculate_preview_offset adjustment < 0) := not_lt.mpr h0
  have hsmall_eq : smallPreviewBytes = 116 * 116 * 2 := rfl
  have hbig_eq : bigPreviewBytes = 290 * 290 * 2 := rfl
  have hslen : ((data.drop (calculate_preview_offset adjustment).toNat).take
      smallPreviewBytes).length = smallPreviewBytes := by
    simp only [List.length_take, List.length_drop]
    omega
  have hblen : ((data.drop ((calculate_preview_offset adjustment).toNat
      + smallPreviewBytes)).take bigPreviewBytes).length = bigPreviewBytes := by
    simp only [List.length_take, List.length_drop]
    omega
  obtain ⟨simg, hs_eq, hs_w, hs_h, hs_len, hs_pix⟩ :=
    extract_preview_image_pixels
      ((data.drop (calculate_preview_offset adjustment).toNat).take
        smallPreviewBytes) 116 116 Endian.big (by rw [hslen]; exact le_of_eq rfl)
  obtain ⟨bimg, hb_eq, hb_w, hb_h, hb_len, hb_pix⟩ :=
    extract_preview_image_pixels
      ((data.drop ((calculate_preview_offset adjustment).toNat
        + smallPreviewBytes)).take bigPreviewBytes) 290 290 Endian.big
      (by rw [hblen]; exact le_of_eq rfl)
  refine ⟨simg, bimg, ?_, hs_w, hs_h, hs_len, hb_w, hb_h, hb_len, ?_, ?_⟩
  · simp [goo_ft_extract_thumbnails, hneg, hs_eq, hb_eq]
  · intro i hi
    have h2i : 2 * i < smallPreviewBytes := by omega
    have h2i1 : 2 * i + 1 < smallPreviewBytes := by omega
    rw [hs_pix i hi, getD_take_of_lt _ _ _ _ h2i, getD_take_of_lt _ _ _ _ h2i1,
      getD_drop, getD_drop,
      show (calculate_preview_offset adjustment).toNat + (2 * i + 1) =
        (calculate_preview_offset adjustment).toNat + 2 * i + 1 from by omega]
  · intro j hj
    have h2j : 2 * j < bigPreviewBytes := by omega
    have h2j1 : 2 * j + 1 < bigPreviewBytes := by omega
    rw [hb_pix j hj, getD_take_of_lt _ _ _ _ h2j, getD_take_of_lt _ _ _ _ h2j1,
      getD_drop, getD_drop,
      show (calculate_preview_offset adjustment).toNat + smallPreviewBytes
          + (2 * j + 1) =
        (calculate_preview_offset adjustment).toNat + smallPreviewBytes + 2 * j + 1
        from by omega]

/-- Witness for C3: an all-zero buffer of exactly
`194 + 116*116*2 + 290*290*2 = 195306` bytes. -/
theorem goo_extract_layout_witness :
    ∃ small big,
      goo_ft_extract_thumbnails (List.replicate 195306 0) 8 false 0 =
        some (small, big) ∧
      small.width = 116 ∧ small.height = 116 ∧
      small.pixels.length = 116 * 116 ∧
      big.width = 290 ∧ big.height = 290 ∧
      big.pixels.length = 290 * 290 ∧
      (∀ i < 116 * 116,
        small.pixels[i]? = some (decode_rgb565 (unpackU16 Endian.big
          ((List.replicate 195306 0).getD
            ((calculate_preview_offset 8).toNat + 2 * i) 0)
          ((List.replicate 195306 0).getD
            ((calculate_preview_offset 8).toNat + 2 * i + 1) 0)))) ∧
      (∀ j < 290 * 290,
        big.pixels[j]? = some (decode_rgb565 (unpackU16 Endian.big
          ((List.replicate 195306 0).getD
            ((calculate_preview_offset 8).toNat + smallPreviewBytes + 2 * j) 0)
          ((List.replicate 195306 0).getD
            ((calculate_preview_offset 8).toNat + smallPreviewBytes + 2 * j + 1)
            0)))) :=
  goo_extract_layout (List.replicate 195306 0) 8
    (by norm_num [calculate_preview_offset, VERSION_SIZE, SOFTWARE_INFO_SIZE,
      SOFTWARE_VERSION_SIZE, FILE_TIME_SIZE, PRINTER_NAME_SIZE,
      PRINTER_TYPE_SIZE, PROFILE_NAME_SIZE])
    (by
      simp only [List.length_replicate]
      norm_num [calculate_preview_offset, smallPreviewBytes, bigPreviewBytes,
        VERSION_SIZE, SOFTWARE_INFO_SIZE, SOFTWARE_VERSION_SIZE,
        FILE_TIME_SIZE, PRINTER_NAME_SIZE, PRINTER_TYPE_SIZE,
        PROFILE_NAME_SIZE]
      decide)

lemma ctb_read_preview_past_end (data : List Nat) (p : Nat)
    (hp : data.length ≤ p) : ctb_read_preview data p = none := by
  unfold ctb_read_preview readU32LE
  rw [List.drop_eq_nil_of_le hp]
  rfl

/-- C5 counterexample: a CTB buffer whose preview block declares
`dataSize = 4` for a 1x1 preview (`width*height*2 = 2`): both pointers are
in bounds, the declared size disagrees with `width*height*2`, yet
extraction succeeds, decoding the first 2 bytes and ignoring the rest. -/
theorem ctb_datasize_mismatch_cex :
    readU32LE [0,0,0,0, 0,0,0,0, 16,0,0,0, 16,0,0,0,
        1,0,0,0, 1,0,0,0, 4,0,0,0, 0,0,0,0] 24 = some 4 ∧
    (4 : Nat) ≠ 1 * 1 * 2 ∧
    ctb_extract_thumbnails [0,0,0,0, 0,0,0,0, 16,0,0,0, 16,0,0,0,
        1,0,0,0, 1,0,0,0, 4,0,0,0, 0,0,0,0] =
      some (⟨1, 1, [(0,0,0)]⟩, ⟨1, 1, [(0,0,0)]⟩) := by
  refine ⟨by decide, by decide, ?_⟩
  have hsr : ctb_smart_rotate ⟨1, 1, [(0,0,0)]⟩ = ⟨1, 1, [(0,0,0)]⟩ := by
    unfold ctb_smart_rotate
    rw [ctb_detect_black1x1]
    simp
  unfold ctb_extract_thumbnails
  simp only [show readU32LE [0,0,0,0, 0,0,0,0, 16,0,0,0, 16,0,0,0,
      1,0,0,0, 1,0,0,0, 4,0,0,0, 0,0,0,0] 0 = some 0 from by decide,
    show readU32LE [0,0,0,0, 0,0,0,0, 16,0,0,0, 16,0,0,0,
      1,0,0,0, 1,0,0,0, 4,0,0,0, 0,0,0,0] 4 = some 0 from by decide,
    show readU32LE [0,0,0,0, 0,0,0,0, 16,0,0,0, 16,0,0,0,
      1,0,0,0, 1,0,0,0, 4,0,0,0, 0,0,0,0] 8 = some 16 from by decide,
    show readU32LE [0,0,0,0, 0,0,0,0, 16,0,0,0, 16,0,0,0,
      1,0,0,0, 1,0,0,0, 4,0,0,0, 0,0,0,0] 12 = some 16 from by decide,
    show ctb_read_preview [0,0,0,0, 0,0,0,0, 16,0,0,0, 16,0,0,0,
      1,0,0,0, 1,0,0,0, 4,0,0,0, 0,0,0,0] 16 = some ⟨1, 1, [(0,0,0)]⟩
      from by decide,
    Option.bind_eq_bind, Option.some_bind, hsr]

/-- C5 amended: when either preview pointer points at or past the end of
the buffer, or a preview block supplies fewer than `width*height*2` bytes
of pixel data (in particular when the declared `dataSize` is smaller),
CTB extraction fails hard with no partial image; an oversized `dataSize`
is however accepted, with the excess bytes ignored. -/
theorem ctb_malformed_spec (data : List Nat) :
    (∀ s l, readU32LE data 8 = some s → readU32LE data 12 = some l →
      data.length ≤ s ∨ data.length ≤ l →
      ctb_extract_thumbnails data = none) ∧
    (∀ p w h ds, readU32LE data p = some w →
      readU32LE data (p + 4) = some h →
      readU32LE data (p + 8) = some ds →
      ((data.drop (p + 12)).take ds).length < w * h * 2 →
      ctb_read_preview data p = none) := by
  constructor
  · intro s l hs hl hsl
    unfold ctb_extract_thumbnails
    rcases hsl with hss | hll
    · cases hm : readU32LE data 0 with
      | none => simp [hm]
      | some m =>
        cases hv : readU32LE data 4 with
        | none => simp [hm, hv]
        | some v =>
          simp [hm, hv, hs, hl, ctb_read_preview_past_end data s hss]
    · cases hm : readU32LE data 0 with
      | none => simp [hm]
      | some m =>
        cases hv : readU32LE data 4 with
        | none => simp [hm, hv]
        | some v =>
          cases hps : ctb_read_preview data s with
          | none => simp [hm, hv, hs, hl, hps]
          | some sm =>
            simp [hm, hv, hs, hl, hps,
              ctb_read_preview_past_end data l hll]
  · intro p w h ds hw hh hds hshort
    unfold ctb_read_preview
    simp [hw, hh, hds, extract_preview_image_short _ _ _ _ hshort]

/-- Witness for the amended C5: a 16-byte buffer whose large-preview
pointer (65535) is past the end fails, and a 12-byte preview block
declaring `dataSize = 5` with no bytes behind it fails. -/
theorem ctb_malformed_spec_witness :
    ctb_extract_thumbnails [0,0,0,0, 0,0,0,0, 16,0,0,0, 255,255,0,0] = none ∧
    ctb_read_preview [1,0,0,0, 1,0,0,0, 5,0,0,0] 0 = none :=
  ⟨(ctb_malformed_spec _).1 16 65535 (by decide) (by decide) (by decide),
    (ctb_malformed_spec _).2 0 1 1 5 (by decide) (by decide) (by decide)
      (by decide)⟩

/-- C9 counterexample: a 3x3 (square) image whose vertical edges carry all
the intensity.  The batch GOO detector returns 0 without running the edge
analysis (square short-circuit), although the identical edge comparison —
as computed by the manager GOO variant — fires and returns 270. -/
theorem goo_batch_square_shortcircuit_cex :
    goo_batch_detect_orientation
      ⟨3, 3, [(0,0,0), (0,0,0), (0,0,0),
              (255,255,255), (0,0,0), (255,255,255),
              (0,0,0), (0,0,0), (0,0,0)]⟩ = 0 ∧
    goo_manager_detect_orientation
      ⟨3, 3, [(0,0,0), (0,0,0), (0,0,0),
              (255,255,255), (0,0,0), (255,255,255),
              (0,0,0), (0,0,0), (0,0,0)]⟩ = 270 := by
  constructor
  · rfl
  · unfold goo_manager_detect_orientation
    dsimp only
    rw [show guardedEdgeSum [(0,0,0), (0,0,0), (0,0,0),
          (255,255,255), (0,0,0), (255,255,255),
          (0,0,0), (0,0,0), (0,0,0)] (List.range 3) = 0 from by decide]
    rw [show guardedEdgeSum [(0,0,0), (0,0,0), (0,0,0),
          (255,255,255), (0,0,0), (255,255,255),
          (0,0,0), (0,0,0), (0,0,0)]
          ((List.range 3).map (fun x => (3-1)*3 + x)) = 0 from by decide]
    rw [show guardedEdgeSum [(0,0,0), (0,0,0), (0,0,0),
          (255,255,255), (0,0,0), (255,255,255),
          (0,0,0), (0,0,0), (0,0,0)]
          ((List.range 3).map (fun y => y * 3)) = 765 from by decide]
    rw [show guardedEdgeSum [(0,0,0), (0,0,0), (0,0,0),
          (255,255,255), (0,0,0), (255,255,255),
          (0,0,0), (0,0,0), (0,0,0)]
          ((List.range 3).map (fun y => y * 3 + (3-1))) = 765 from by decide]
    norm_num

/-- C9 amended: the manager GOO variant still runs the edge analysis on
square images (a square image can be detected as 270), but the batch GOO
variant short-circuits every square image to 0. -/
theorem goo_detect_square_spec :
    (∀ img : PImage, img.width = img.height →
      goo_batch_detect_orientation img = 0) ∧
    goo_manager_detect_orientation
      ⟨3, 3, [(0,0,0), (0,0,0), (0,0,0),
              (255,0,0), (0,0,0), (255,0,0),
              (0,0,0), (0,0,0), (0,0,0)]⟩ = 270 := by
  constructor
  · intro img h
    unfold goo_batch_detect_orientation
    dsimp only
    rw [if_pos h]
  · unfold goo_manager_detect_orientation
    dsimp only
    rw [show guardedEdgeSum [(0,0,0), (0,0,0), (0,0,0),
          (255,0,0), (0,0,0), (255,0,0),
          (0,0,0), (0,0,0), (0,0,0)] (List.range 3) = 0 from by decide]
    rw [show guardedEdgeSum [(0,0,0), (0,0,0), (0,0,0),
          (255,0,0), (0,0,0), (255,0,0),
          (0,0,0), (0,0,0), (0,0,0)]
          ((List.range 3).map (fun x => (3-1)*3 + x)) = 0 from by decide]
    rw [show guardedEdgeSum [(0,0,0), (0,0,0), (0,0,0),
          (255,0,0), (0,0,0), (255,0,0),
          (0,0,0), (0,0,0), (0,0,0)]
          ((List.range 3).map (fun y => y * 3)) = 255 from by decide]
    rw [show guardedEdgeSum [(0,0,0), (0,0,0), (0,0,0),
          (255,0,0), (0,0,0), (255,0,0),
          (0,0,0), (0,0,0), (0,0,0)]
          ((List.range 3).map (fun y => y * 3 + (3-1))) = 255 from by decide]
    norm_num

/-- Witness for the amended C9: the square short-circuit at a concrete 1x1
image. -/
theorem goo_detect_square_spec_witness :
    goo_batch_detect_orientation ⟨1, 1, [(0,0,0)]⟩ = 0 :=
  goo_detect_square_spec.1 ⟨1, 1, [(0,0,0)]⟩ rfl

lemma fbo_step_skip (data : List Nat) (s : BestState) (t : Int)
    (ht : t < 0 ∨ data.length < t.toNat + bigPreviewBytes) :
    fbo_step data s t = s := by
  unfold fbo_step
  by_cases hneg : t < 0
  · rw [if_pos hneg]
  · rw [if_neg hneg]
    dsimp only
    have hlt : ((data.drop t.toNat).take bigPreviewBytes).length
        < bigPreviewBytes := by
      rcases ht with h | h
      · exact absurd h hneg
      · simp only [List.length_take, List.length_drop, bigPreviewBytes] at h ⊢
        omega
    rw [if_pos hlt]

lemma fold_fbo_skip (data : List Nat) :
    ∀ (ts : List Int) (s : BestState),
      (∀ t ∈ ts, t < 0 ∨ data.length < t.toNat + bigPreviewBytes) →
      ts.foldl (fbo_step data) s = s
  | [], _, _ => rfl
  | t :: ts, s, h => by
    simp only [List.foldl_cons]
    rw [fbo_step_skip data s t (h t (List.mem_cons_self t ts))]
    exact fold_fbo_skip data ts s (fun u hu => h u (List.mem_cons_of_mem t hu))

/-- C10: when no candidate offset in the search window yields a decodable
large preview, `find_best_offset` does not fall back to the base offset:
it fails (the unbound `best_endian` read), so `extract_thumbnails` with
auto-adjust enabled fails on every such file instead of extracting at the
base offset. -/
theorem find_best_offset_unbound (data : List Nat) (adjustment : Int)
    (rotate : Nat)
    (h : ∀ t ∈ candidateOffsets (calculate_preview_offset adjustment) 100,
      t < 0 ∨ data.length < t.toNat + bigPreviewBytes) :
    find_best_offset data (calculate_preview_offset adjustment) 100 = none ∧
    goo_ft_extract_thumbnails data adjustment true rotate = none := by
  have hfb : find_best_offset data (calculate_preview_offset adjustment) 100
      = none := by
    unfold find_best_offset
    rw [fold_fbo_skip data _ _ h]
  exact ⟨hfb, by simp [goo_ft_extract_thumbnails, hfb]⟩

/-- Witness for C10 at the empty buffer: every candidate offset lacks the
`290*290*2` bytes, so the auto-adjust extraction fails outright. -/
theorem find_best_offset_unbound_witness :
    find_best_offset [] (calculate_preview_offset 0) 100 = none ∧
    goo_ft_extract_thumbnails [] 0 true 0 = none :=
  find_best_offset_unbound [] 0 0 (by decide)

lemma decode_rgb565_le (p : Nat) :
    (decode_rgb565 p).1 ≤ 255 ∧ (decode_rgb565 p).2.1 ≤ 255 ∧
      (decode_rgb565 p).2.2 ≤ 255 := by
  unfold decode_rgb565
  refine ⟨?_, ?_, ?_⟩
  · exact scale255_le _ _ (by rw [and_31_eq_mod]; omega) (by norm_num)
  · exact scale255_le _ _ (by rw [and_63_eq_mod]; omega) (by norm_num)
  · exact scale255_le _ _ (by rw [and_31_eq_mod]; omega) (by norm_num)

lemma toPixels_channels_le (e : Endian) :
    ∀ l : List Nat, ∀ q ∈ toPixels e l,
      q.1 ≤ 255 ∧ q.2.1 ≤ 255 ∧ q.2.2 ≤ 255
  | [], q, hq => by simp [toPixels] at hq
  | [_], q, hq => by simp [toPixels] at hq
  | b0 :: b1 :: rest, q, hq => by
    simp only [toPixels, List.mem_cons] at hq
    rcases hq with hq | hq
    · rw [hq]
      exact decode_rgb565_le _
    · exact toPixels_channels_le e rest q hq

lemma getD_channels_le (pixels : List RGB)
    (hb : ∀ q ∈ pixels, q.1 ≤ 255 ∧ q.2.1 ≤ 255 ∧ q.2.2 ≤ 255) (i : Nat) :
    (pixels.getD i (0, 0, 0)).1 ≤ 255 ∧
      (pixels.getD i (0, 0, 0)).2.1 ≤ 255 ∧
      (pixels.getD i (0, 0, 0)).2.2 ≤ 255 := by
  rw [List.getD_eq_getElem?_getD]
  cases hq : pixels[i]? with
  | none => simp
  | some q =>
    simp only [Option.getD_some]
    exact hb q (List.getElem?_mem hq)

lemma colorDiff_le_765 (p q : RGB)
    (hp : p.1 ≤ 255 ∧ p.2.1 ≤ 255 ∧ p.2.2 ≤ 255)
    (hq : q.1 ≤ 255 ∧ q.2.1 ≤ 255 ∧ q.2.2 ≤ 255) :
    colorDiff p q ≤ 765 := by
  unfold colorDiff chanDiff Nat.dist
  omega

lemma foldl_add_le {α : Type} (f : α → Nat) (B : Nat) :
    ∀ (L : List α) (init : Nat), (∀ x ∈ L, f x ≤ B) →
      L.foldl (fun acc x => acc + f x) init ≤ init + B * L.length
  | [], init, _ => by simp
  | x :: L, init, h => by
    simp only [List.foldl_cons, List.length_cons]
    calc (L.foldl (fun acc x => acc + f x) (init + f x))
        ≤ init + f x + B * L.length :=
          foldl_add_le f B L (init + f x)
            (fun y hy => h y (List.mem_cons_of_mem x hy))
      _ ≤ init + B * (L.length + 1) := by
          have := h x (List.mem_cons_self x L)
          nlinarith

lemma quality_gt_init (img : PImage)
    (hb : ∀ q ∈ img.pixels, q.1 ≤ 255 ∧ q.2.1 ≤ 255 ∧ q.2.2 ≤ 255)
    (hh : 0 < img.height) :
    (-999999 : ℚ) < calculate_image_quality img := by
  have key : ∀ co edge : ℚ, 0 ≤ co → edge ≤ 765 →
      (-999999 : ℚ) < co * 100 - edge / 10 := by
    intro co edge h1 h2
    linarith
  unfold calculate_image_quality
  dsimp only
  refine key _ _ ?_ ?_
  · split
    · exact div_nonneg (Nat.cast_nonneg _) (Nat.cast_nonneg _)
    · exact le_refl 0
  · have hbound : ∀ lr ∈ ((sampleEvery 5 img.height).map
        (fun y => img.pixels.getD (y * img.width) (0, 0, 0))).zip
        ((sampleEvery 5 img.height).map
          (fun y => img.pixels.getD (y * img.width + img.width - 1) (0, 0, 0))),
        colorDiff lr.1 lr.2 ≤ 765 := by
      rintro ⟨p, q⟩ hlr
      obtain ⟨hp, hq⟩ := List.of_mem_zip hlr
      obtain ⟨y1, _, hy1⟩ := List.mem_map.mp hp
      obtain ⟨y2, _, hy2⟩ := List.mem_map.mp hq
      rw [← hy1, ← hy2]
      exact colorDiff_le_765 _ _ (getD_channels_le _ hb _) (getD_channels_le _ hb _)
    have hsum := foldl_add_le (fun lr : RGB × RGB => colorDiff lr.1 lr.2) 765
      (((sampleEvery 5 img.height).map
        (fun y => img.pixels.getD (y * img.width) (0, 0, 0))).zip
        ((sampleEvery 5 img.height).map
          (fun y => img.pixels.getD (y * img.width + img.width - 1) (0, 0, 0))))
      0 hbound
    have hyspos : 0 < (sampleEvery 5 img.height).length := by
      unfold sampleEvery
      simp only [List.length_map, List.length_range]
      omega
    rw [div_le_iff₀ (by
      simp only [List.length_map]
      exact_mod_cast hyspos)]
    simp only [List.length_zip, List.length_map, min_self, zero_add] at hsum ⊢
    exact_mod_cast hsum

lemma fbo_step_valid (data : List Nat) (s : BestState) (t : Int)
    (h0 : ¬ t < 0) (hlen : t.toNat + bigPreviewBytes ≤ data.length) :
    fbo_step data s t =
      spec_pair_step data (spec_pair_step data s (t, Endian.big))
        (t, Endian.little) := by
  have hl : ((data.drop t.toNat).take bigPreviewBytes).length
      = bigPreviewBytes := by
    simp only [List.length_take, List.length_drop]
    omega
  unfold fbo_step
  rw [if_neg h0]
  dsimp only
  rw [if_neg (by rw [hl]; exact lt_irrefl _)]
  simp only [List.foldl_cons, List.foldl_nil]
  rw [extract_preview_image_ok _ _ _ _ (le_of_eq hl.symm),
    extract_preview_image_ok _ _ _ _ (le_of_eq hl.symm)]
  dsimp only
  have hle : ((data.drop t.toNat).take bigPreviewBytes).length ≤ 290 * 290 * 2 :=
    le_of_eq hl
  rw [List.take_of_length_le hle]
  unfold spec_pair_step spec_candidate_quality
  dsimp only

lemma fold_fbo_eq_pairs (data : List Nat) :
    ∀ (ts : List Int) (s : BestState),
      ts.foldl (fbo_step data) s =
        ((ts.filter (fun t => decide (0 ≤ t ∧
            t.toNat + bigPreviewBytes ≤ data.length))).flatMap
          (fun t => [(t, Endian.big), (t, Endian.little)])).foldl
          (spec_pair_step data) s
  | [], _ => rfl
  | t :: ts, s => by
    by_cases hc : 0 ≤ t ∧ t.toNat + bigPreviewBytes ≤ data.length
    · have hfil : List.filter
          (fun t => decide (0 ≤ t ∧ t.toNat + bigPreviewBytes ≤ data.length))
          (t :: ts) = t :: List.filter
          (fun t => decide (0 ≤ t ∧ t.toNat + bigPreviewBytes ≤ data.length))
          ts := by
        simp [List.filter_cons, hc.1, hc.2]
      rw [hfil, List.flatMap_cons]
      simp only [List.foldl_append, List.foldl_cons, List.foldl_nil]
      rw [fbo_step_valid data s t (not_lt.mpr hc.1) hc.2]
      exact fold_fbo_eq_pairs data ts _
    · have hfil : List.filter
          (fun t => decide (0 ≤ t ∧ t.toNat + bigPreviewBytes ≤ data.length))
          (t :: ts) = List.filter
          (fun t => decide (0 ≤ t ∧ t.toNat + bigPreviewBytes ≤ data.length))
          ts := by
        simp only [List.filter_cons]
        simp [hc]
      rw [hfil, List.foldl_cons,
        fbo_step_skip data s t ?_]
      · exact fold_fbo_eq_pairs data ts s
      · rcases not_and_or.mp hc with h | h
        · left
          omega
        · right
          omega

lemma spec_pair_step_pos (data : List Nat) (s : BestState) (c : Int × Endian)
    (h : spec_candidate_quality data c > s.best_quality) :
    spec_pair_step data s c =
      ⟨c.1, spec_candidate_quality data c, some c.2⟩ := by
  unfold spec_pair_step
  rw [if_pos h]

lemma spec_pair_step_neg (data : List Nat) (s : BestState) (c : Int × Endian)
    (h : ¬ spec_candidate_quality data c > s.best_quality) :
    spec_pair_step data s c = s := by
  unfold spec_pair_step
  rw [if_neg h]

lemma pair_fold_argmax (data : List Nat) :
    ∀ (pairs : List (Int × Endian)) (c : Int × Endian),
      ∃ l₁ c' l₂,
        c :: pairs = l₁ ++ c' :: l₂ ∧
        pairs.foldl (spec_pair_step data)
            ⟨c.1, spec_candidate_quality data c, some c.2⟩ =
          ⟨c'.1, spec_candidate_quality data c', some c'.2⟩ ∧
        (∀ x ∈ l₁,
          spec_candidate_quality data x < spec_candidate_quality data c') ∧
        (∀ x ∈ l₂,
          spec_candidate_quality data x ≤ spec_candidate_quality data c')
  | [], c => ⟨[], c, [], rfl, rfl, by simp, by simp⟩
  | x :: rest, c => by
    by_cases hx : spec_candidate_quality data x > spec_candidate_quality data c
    · obtain ⟨l₁, c', l₂, hdec, hfold, hl1, hl2⟩ := pair_fold_argmax data rest x
      have hcc' : spec_candidate_quality data c
          < spec_candidate_quality data c' := by
        rcases l₁ with _ | ⟨a, l₁'⟩
        · simp only [List.nil_append, List.cons.injEq] at hdec
          rw [← hdec.1]
          exact hx
        · simp only [List.cons_append, List.cons.injEq] at hdec
          calc spec_candidate_quality data c
              < spec_candidate_quality data x := hx
            _ = spec_candidate_quality data a := by rw [hdec.1]
            _ < spec_candidate_quality data c' :=
                hl1 a (List.mem_cons_self a l₁')
      refine ⟨c :: l₁, c', l₂, ?_, ?_, ?_, hl2⟩
      · rw [List.cons_append, ← hdec]
      · rw [List.foldl_cons, spec_pair_step_pos data _ x hx]
        exact hfold
      · intro y hy
        rcases List.mem_cons.mp hy with hy | hy
        · rw [hy]
          exact hcc'
        · exact hl1 y hy
    · obtain ⟨l₁, c', l₂, hdec, hfold, hl1, hl2⟩ := pair_fold_argmax data rest c
      rcases l₁ with _ | ⟨a, l₁'⟩
      · simp only [List.nil_append, List.cons.injEq] at hdec
        refine ⟨[], c', x :: l₂, ?_, ?_, by simp, ?_⟩
        · rw [List.nil_append, List.cons.injEq]
          exact ⟨hdec.1, by rw [hdec.2]⟩
        · rw [List.foldl_cons, spec_pair_step_neg data _ x hx]
          exact hfold
        · intro y hy
          rcases List.mem_cons.mp hy with hy | hy
          · rw [hy, ← hdec.1]
            exact not_lt.mp hx
          · exact hl2 y hy
      · simp only [List.cons_append, List.cons.injEq] at hdec
        refine ⟨c :: x :: l₁', c', l₂, ?_, ?_, ?_, hl2⟩
        · rw [hdec.2]
          simp
        · rw [List.foldl_cons, spec_pair_step_neg data _ x hx]
          exact hfold
        · intro y hy
          have hac' : spec_candidate_quality data a
              < spec_candidate_quality data c' :=
            hl1 a (List.mem_cons_self a l₁')
          rcases List.mem_cons.mp hy with hy | hy
          · rw [hy, hdec.1]
            exact hac'
          · rcases List.mem_cons.mp hy with hy | hy
            · rw [hy]
              calc spec_candidate_quality data x
                  ≤ spec_candidate_quality data c := not_lt.mp hx
                _ = spec_candidate_quality data a := by rw [hdec.1]
                _ < spec_candidate_quality data c' := hac'
            · exact hl1 y (List.mem_cons_of_mem a hy)

/-- C6: `find_best_offset` realises a first-argmax search over the spec's
candidate list: offsets from `base - r` to `base + r` in steps of 2,
candidates without `290*290*2` remaining bytes (or with a negative seek
target) skipped, each surviving offset scored in big- then little-endian
decode of the large preview with `calculate_image_quality`
(`coherence*100 - edge_diff/10`).  If no candidate survives the search
fails; otherwise it returns exactly the first candidate, in iteration
order, whose score is maximal — every earlier candidate scores strictly
lower (strict `>` comparison keeps the first on ties) and every later one
scores no higher. -/
theorem find_best_offset_first_argmax (data : List Nat) (base : Int)
    (r : Nat) :
    (spec_scored_candidates data base r = [] →
      find_best_offset data base r = none) ∧
    (spec_scored_candidates data base r ≠ [] →
      ∃ l₁ c l₂,
        spec_scored_candidates data base r = l₁ ++ c :: l₂ ∧
        find_best_offset data base r =
          some (c.1, c.2, spec_candidate_quality data c) ∧
        (∀ x ∈ l₁,
          spec_candidate_quality data x < spec_candidate_quality data c) ∧
        (∀ x ∈ l₂,
          spec_candidate_quality data x ≤ spec_candidate_quality data c)) := by
  have hfold : (candidateOffsets base r).foldl (fbo_step data)
      ⟨base, -999999, none⟩ =
      (spec_scored_candidates data base r).foldl (spec_pair_step data)
        ⟨base, -999999, none⟩ := fold_fbo_eq_pairs data _ _
  constructor
  · intro hnil
    unfold find_best_offset
    dsimp only
    rw [hfold, hnil]
    rfl
  · intro hne
    obtain ⟨p, rest, hp⟩ := List.exists_cons_of_ne_nil hne
    have hqp : spec_candidate_quality data p >
        (⟨base, -999999, none⟩ : BestState).best_quality := by
      show (-999999 : ℚ) < spec_candidate_quality data p
      unfold spec_candidate_quality
      exact quality_gt_init _ (fun q hq => toPixels_channels_le _ _ q hq)
        (by norm_num)
    obtain ⟨l₁, c', l₂, hdec, hfoldr, hl1, hl2⟩ := pair_fold_argmax data rest p
    refine ⟨l₁, c', l₂, by rw [hp]; exact hdec, ?_, hl1, hl2⟩
    unfold find_best_offset
    dsimp only
    rw [hfold, hp, List.foldl_cons, spec_pair_step_pos data _ p hqp, hfoldr]

/-- Witness for C6: with no usable candidate (empty buffer, radius 0) the
search fails; with exactly one surviving offset (a 168200-byte buffer,
base 0, radius 0) it returns the first maximal candidate of the two
scored ones. -/
theorem find_best_offset_first_argmax_witness :
    find_best_offset [] 0 0 = none ∧
    (∃ l₁ c l₂,
      spec_scored_candidates (List.replicate 168200 0) 0 0 = l₁ ++ c :: l₂ ∧
      find_best_offset (List.replicate 168200 0) 0 0 =
        some (c.1, c.2, spec_candidate_quality (List.replicate 168200 0) c) ∧
      (∀ x ∈ l₁, spec_candidate_quality (List.replicate 168200 0) x
        < spec_candidate_quality (List.replicate 168200 0) c) ∧
      (∀ x ∈ l₂, spec_candidate_quality (List.replicate 168200 0) x
        ≤ spec_candidate_quality (List.replicate 168200 0) c)) :=
  ⟨(find_best_offset_first_argmax [] 0 0).1 (by decide),
    (find_best_offset_first_argmax (List.replicate 168200 0) 0 0).2 (by
      have hcands : spec_scored_candidates (List.replicate 168200 0) 0 0 =
          [(0, Endian.big), (0, Endian.little)] := by
        unfold spec_scored_candidates candidateOffsets
        norm_num [List.length_replicate, List.range_succ, bigPreviewBytes]
      rw [hcands]
      simp)⟩
